import Mathlib

/-!
Verification development for the AIXplore Capability Exchange client
(React components under src/frontend and src/unnamed). The definitions below
are shallow embeddings of the client-side state and handlers of
Marketplace.tsx, MarketplaceDetail.tsx, WorkflowDashboard.tsx and
WorkflowDetail.tsx. The backend marketplace and workflow services are not part
of this repository; where a property depends on them, a definition marked
"Modelled from the spec" embeds the documented behaviour instead.
-/

namespace Spec2Proof

/-- Embedding of the JavaScript string method startsWith, computed over the
character list so that concrete instances evaluate by kernel reduction.
First argument is the receiver string, second the candidate leading text. -/
def jsStartsWithList : List Char → List Char → Bool
  | _, [] => true
  | [], _ :: _ => false
  | c :: cs, p :: ps => c == p && jsStartsWithList cs ps

/-- JavaScript expression s.startsWith(pre). -/
def jsStartsWith (s pre : String) : Bool := jsStartsWithList s.data pre.data

/-- JavaScript expression s.trim(): drop whitespace from both ends. -/
def jsTrim (s : String) : String :=
  ⟨((s.data.dropWhile Char.isWhitespace).reverse.dropWhile Char.isWhitespace).reverse⟩

/-- JavaScript truthiness of a string value: only the empty string is falsy. -/
def strTruthy (s : String) : Bool := !(s == "")

/-! ### Marketplace data model (MarketplaceDetail.tsx, interfaces Volunteer and
WorkRequest; user records are reduced to their numeric id) -/

/-- Volunteer row as carried by the client. -/
structure Volunteer where
  id : Nat
  user_id : Nat
  note : String
  status : String
  deriving DecidableEq

/-- Marketplace work request as carried by the client. -/
structure WorkRequest where
  id : Nat
  title : String
  description : String
  required_capabilities : List String
  status : String
  requester_id : Nat
  parent_workflow_id : Option Nat
  volunteers : List Volunteer
  deriving DecidableEq

/-- MarketplaceDetail.tsx line 106: currentUser.id === request.requester_id. -/
def isRequester (req : WorkRequest) (userId : Nat) : Bool :=
  userId == req.requester_id

/-- MarketplaceDetail.tsx line 107: a note marks a direct invite exactly when
it starts with the text Direct invite. -/
def isDirectInvite (note : String) : Bool := jsStartsWith note "Direct invite"

/-- MarketplaceDetail.tsx lines 108 to 110: the pending direct invite addressed
to the current user, if any. -/
def myInvite (req : WorkRequest) (userId : Nat) : Option Volunteer :=
  req.volunteers.find? fun v =>
    v.user_id == userId && v.status == "pending" && isDirectInvite v.note

/-- MarketplaceDetail.tsx lines 111 to 113: has the current user already
volunteered (direct invites do not count). -/
def hasVolunteered (req : WorkRequest) (userId : Nat) : Bool :=
  req.volunteers.any fun v => v.user_id == userId && !(isDirectInvite v.note)

/-- MarketplaceDetail.tsx lines 192 to 200: the accept button next to a listed
volunteer is rendered only for the requester and only while the request is
open. -/
def acceptButtonShown (req : WorkRequest) (userId : Nat) : Bool :=
  isRequester req userId && req.status == "open"

/-- MarketplaceDetail.tsx lines 215 to 229: the direct invite panel offers
accept to a non requester holding a pending direct invite while the request is
open. -/
def inviteAcceptShown (req : WorkRequest) (userId : Nat) (v : Volunteer) : Bool :=
  !(isRequester req userId) && req.status == "open" && (myInvite req userId == some v)

/-- The accept action for volunteer v is offered to userId through either the
volunteer list button (for volunteers of the request) or the direct invite
panel. -/
def acceptOffered (req : WorkRequest) (userId : Nat) (v : Volunteer) : Bool :=
  (acceptButtonShown req userId && req.volunteers.contains v) ||
    inviteAcceptShown req userId v

/-! ### MarketplaceDetail handlers (lines 68 to 101) -/

/-- Mutable client state of MarketplaceDetail relevant to its handlers. -/
structure MarketplaceDetailState where
  volunteering : Bool
  volunteerNote : String
  accepting : Option Nat
  deriving DecidableEq

/-- Body of the volunteer POST request. -/
structure VolunteerPayload where
  user_id : Nat
  note : String
  deriving DecidableEq

/-- Body of the accept POST request. -/
structure AcceptPayload where
  volunteer_id : Nat
  user_id : Nat
  deriving DecidableEq

/-- handleVolunteer (MarketplaceDetail.tsx lines 68 to 84) as one settled round
trip: result is the state after the handler finishes together with the request
it issued, if any. Guarded by the volunteering flag; posts the trimmed note;
on success clears the note; the flag is reset in the finally block. -/
def handleVolunteer (st : MarketplaceDetailState) (userId : Nat) (serverOk : Bool) :
    MarketplaceDetailState × Option VolunteerPayload :=
  if st.volunteering then (st, none)
  else
    let payload : VolunteerPayload := ⟨userId, jsTrim st.volunteerNote⟩
    if serverOk then ({ st with volunteerNote := "", volunteering := false }, some payload)
    else ({ st with volunteering := false }, some payload)

/-- handleAccept (MarketplaceDetail.tsx lines 86 to 101): guarded by the
accepting flag; posts the chosen volunteer id and the acting user id; the flag
is reset to null in the finally block. -/
def handleAccept (st : MarketplaceDetailState) (volunteerId userId : Nat) :
    MarketplaceDetailState × Option AcceptPayload :=
  if st.accepting.isSome then (st, none)
  else ({ st with accepting := none }, some ⟨volunteerId, userId⟩)

/-! ### Marketplace board (Marketplace.tsx) -/

/-- Mutable client state of the post form in Marketplace.tsx. -/
structure MarketplaceState where
  newTitle : String
  newDesc : String
  newCaps : List String
  posting : Bool
  deriving DecidableEq

/-- Body of the post request POST call. -/
structure PostRequestPayload where
  title : String
  description : String
  requester_id : Nat
  required_capabilities : List String
  deriving DecidableEq

/-- handlePostRequest (Marketplace.tsx lines 76 to 98) as one settled round
trip: returns early when title or description trim to empty or a post is in
flight; otherwise posts the trimmed fields and, on success, resets the form. -/
def handlePostRequest (st : MarketplaceState) (userId : Nat) (serverOk : Bool) :
    MarketplaceState × Option PostRequestPayload :=
  if !(strTruthy (jsTrim st.newTitle)) || !(strTruthy (jsTrim st.newDesc)) || st.posting then
    (st, none)
  else
    let payload : PostRequestPayload :=
      ⟨jsTrim st.newTitle, jsTrim st.newDesc, userId, st.newCaps⟩
    if serverOk then
      ({ newTitle := "", newDesc := "", newCaps := ["research"], posting := false },
        some payload)
    else ({ st with posting := false }, some payload)

/-- Marketplace.tsx line 192: the submit button of the post form is enabled
exactly when title and description trim to non empty text, at least one
capability is selected and no post is in flight. -/
def postButtonEnabled (st : MarketplaceState) : Bool :=
  !(!(strTruthy (jsTrim st.newTitle)) || !(strTruthy (jsTrim st.newDesc)) ||
      st.newCaps.length == 0 || st.posting)

/-- Error taxonomy of the backend services as named by the spec, section 7. -/
inductive MarketplaceError where
  | ValidationError
  | InvalidTransition
  | NotFound
  | DuplicateVolunteer
  deriving DecidableEq

/-- Modelled from the spec: the backend operation post_request is not under
src (the repository holds only the client). Spec section 4.3: it creates an
open MarketplaceRequest and fails with ValidationError if title or description
are empty or capabilities is empty. -/
def post_request (requesterId : Nat) (title description : String)
    (capabilities : List String) (freshId : Nat) :
    Except MarketplaceError WorkRequest :=
  if title == "" || description == "" || capabilities.isEmpty then
    .error .ValidationError
  else
    .ok { id := freshId, title := title, description := description,
          required_capabilities := capabilities, status := "open",
          requester_id := requesterId, parent_workflow_id := none,
          volunteers := [] }

/-! ### Workflow dashboard (WorkflowDashboard.tsx, src/unnamed/part_005) -/

/-- Step summary as carried by the dashboard. -/
structure StepSummary where
  step_type : String
  status : String
  iteration_count : Nat
  deriving DecidableEq

/-- Workflow summary row of the dashboard. -/
structure WorkflowSummary where
  id : Nat
  user_id : Nat
  title : String
  status : String
  workflow_type : String
  steps : List StepSummary
  deriving DecidableEq

/-- One entry of the statusConfig table. -/
structure StatusInfo where
  label : String
  badge : String
  icon : String
  deriving DecidableEq

/-- The Pending entry of statusConfig. -/
def pendingStatusInfo : StatusInfo := ⟨"Pending", "badge-pending", "⏳"⟩

/-- statusConfig (WorkflowDashboard.tsx lines 30 to 39) as an association
list keyed by workflow status. -/
def statusConfigList : List (String × StatusInfo) :=
  [("pending", pendingStatusInfo),
   ("collaborating", ⟨"Collaborating", "badge-active", "💬"⟩),
   ("researching", ⟨"Research In Progress", "badge-active", "🔍"⟩),
   ("refining", ⟨"Refining Research", "badge-active", "🔄"⟩),
   ("awaiting_review", ⟨"Awaiting Review", "badge-review", "👁️"⟩),
   ("generating_ppt", ⟨"Generating PPT", "badge-active", "📊"⟩),
   ("completed", ⟨"Completed", "badge-success", "✅"⟩),
   ("failed", ⟨"Failed", "badge-error", "❌"⟩)]

/-- A value read off a JavaScript object by member lookup: an own entry of the
statusConfig literal, a truthy function or object inherited from the Object
prototype, or undefined. -/
inductive JsValue where
  | statusInfo (info : StatusInfo)
  | inherited
  | undefinedValue
  deriving DecidableEq

/-- The property names every object literal inherits from the Object
prototype; indexing statusConfig with one of these yields a truthy inherited
function or object rather than undefined. -/
def objectPrototypeKeys : List String :=
  ["constructor", "hasOwnProperty", "isPrototypeOf", "propertyIsEnumerable",
   "toLocaleString", "toString", "valueOf", "__proto__", "__defineGetter__",
   "__defineSetter__", "__lookupGetter__", "__lookupSetter__"]

/-- JavaScript member lookup statusConfig[status]: an own key yields its
entry, a key inherited from the Object prototype yields the inherited truthy
value, and any other key yields undefined. -/
def statusConfigLookup (status : String) : JsValue :=
  match statusConfigList.find? fun p => p.1 == status with
  | some p => .statusInfo p.2
  | none => if objectPrototypeKeys.contains status then .inherited else .undefinedValue

/-- JavaScript truthiness of a looked up value: functions and objects are
truthy, undefined is falsy. -/
def jsTruthy : JsValue → Bool
  | .statusInfo _ => true
  | .inherited => true
  | .undefinedValue => false

/-- WorkflowDashboard.tsx lines 227 and 301: statusConfig[w.status] with the
Pending entry as fallback when the lookup is falsy. -/
def renderStatusValue (status : String) : JsValue :=
  if jsTruthy (statusConfigLookup status) then statusConfigLookup status
  else .statusInfo pendingStatusInfo

/-- Reading the label member off a looked up value; undefined unless the
value is a statusConfig entry. -/
def jsLabel : JsValue → Option String
  | .statusInfo info => some info.label
  | _ => none

/-- Reading the badge member off a looked up value; undefined unless the
value is a statusConfig entry. -/
def jsBadge : JsValue → Option String
  | .statusInfo info => some info.badge
  | _ => none

/-- WorkflowDashboard.tsx line 41: the statuses of an active run. -/
def runningWorkflowStatuses : List String :=
  ["researching", "refining", "generating_ppt"]

/-- Mutable dashboard state relevant to deletion. -/
structure DashboardState where
  workflows : List WorkflowSummary
  deletingWorkflowId : Option Nat
  deriving DecidableEq

/-- handleDeleteWorkflow (WorkflowDashboard.tsx lines 97 to 124) as one settled
round trip: result is the state after the handler finishes together with the
id named in the DELETE request it issued, if any. Guarded first by the in
flight id, then by the active run statuses, then by the confirm dialog; on a
successful DELETE the workflow is removed from the list. -/
def handleDeleteWorkflow (s : DashboardState) (w : WorkflowSummary)
    (confirmed : Bool) (serverOk : Bool) : DashboardState × Option Nat :=
  if s.deletingWorkflowId.isSome then (s, none)
  else if runningWorkflowStatuses.contains w.status then (s, none)
  else if !confirmed then (s, none)
  else if serverOk then
    ({ workflows := s.workflows.filter fun item => !(item.id == w.id),
       deletingWorkflowId := none }, some w.id)
  else ({ s with deletingWorkflowId := none }, some w.id)

/-- Mutable state of the new workflow form. -/
structure NewWorkflowFormState where
  newTopic : String
  creating : Bool
  showNewForm : Bool
  deriving DecidableEq

/-- Body of the create workflow POST call. -/
structure CreateWorkflowPayload where
  topic : String
  user_id : Nat
  workflow_type : String
  deriving DecidableEq

/-- handleCreateWorkflow (WorkflowDashboard.tsx lines 71 to 89) as one settled
round trip: returns early when the topic trims to empty or a create is in
flight; otherwise posts the trimmed topic and, on success, resets the form. -/
def handleCreateWorkflow (st : NewWorkflowFormState) (userId : Nat) (serverOk : Bool) :
    NewWorkflowFormState × Option CreateWorkflowPayload :=
  if !(strTruthy (jsTrim st.newTopic)) || st.creating then (st, none)
  else
    let payload : CreateWorkflowPayload := ⟨jsTrim st.newTopic, userId, "ppt_generation"⟩
    if serverOk then
      ({ newTopic := "", creating := false, showNewForm := false }, some payload)
    else ({ st with creating := false }, some payload)

/-! ### Workflow detail (WorkflowDetail.tsx) -/

/-- Step row as carried by the workflow detail view. -/
structure WorkflowStep where
  id : Nat
  step_order : Nat
  step_type : String
  status : String
  iteration_count : Nat
  deriving DecidableEq

/-- Event row as carried by the workflow detail view. -/
structure WorkflowEvent where
  id : Nat
  event_type : String
  message : Option String
  channel : Option String
  deriving DecidableEq

/-- Workflow record as carried by the workflow detail view. -/
structure Workflow where
  id : Nat
  title : String
  status : String
  steps : List WorkflowStep
  events : List WorkflowEvent
  deriving DecidableEq

/-- One slot of the pipeline tracker. -/
structure PipelineSlot where
  key : String
  label : String
  icon : String
  step : Option WorkflowStep
  deriving DecidableEq

/-- pipelineSteps (WorkflowDetail.tsx lines 164 to 174): three fixed tracker
slots, each filled by the first step whose step_type matches that slot. -/
def pipelineSteps (w : Workflow) : List PipelineSlot :=
  [⟨"research", "Research", "🔬", w.steps.find? fun s => s.step_type == "agent_research"⟩,
   ⟨"review", "Review", "👁️", w.steps.find? fun s => s.step_type == "human_review"⟩,
   ⟨"generate", "Generate", "📊", w.steps.find? fun s => s.step_type == "agent_generation"⟩]

/-- WorkflowDetail.tsx line 202: a slot with no step renders as pending. -/
def slotStatus (slot : PipelineSlot) : String :=
  match slot.step with
  | some s => s.status
  | none => "pending"

/-- stepStatusToClass (WorkflowDetail.tsx lines 65 to 72). -/
def stepStatusToClassList : List (String × String) :=
  [("pending", "pipeline-dot-pending"),
   ("in_progress", "pipeline-dot-active"),
   ("awaiting_input", "pipeline-dot-active"),
   ("completed", "pipeline-dot-completed"),
   ("failed", "pipeline-dot-failed"),
   ("skipped", "pipeline-dot-pending")]

/-- WorkflowDetail.tsx line 203: stepStatusToClass[status] with the pending
dot class as fallback. -/
def slotDotClass (slot : PipelineSlot) : String :=
  ((stepStatusToClassList.find? fun p => p.1 == slotStatus slot).map Prod.snd).getD
    "pipeline-dot-pending"

/-- A step list is in step_order sequence when consecutive orders never
decrease. -/
def sortedByStepOrder : List WorkflowStep → Bool
  | [] => true
  | [_] => true
  | a :: b :: rest => Nat.ble a.step_order b.step_order && sortedByStepOrder (b :: rest)

/-- Mutable review state of WorkflowDetail. -/
structure ReviewState where
  feedback : String
  submitting : Bool
  deriving DecidableEq

/-- Body of the review POST call. -/
structure ReviewPayload where
  action : String
  feedback : Option String
  user_id : Nat
  channel : String
  deriving DecidableEq

/-- handleReview (WorkflowDetail.tsx lines 115 to 135) as one settled round
trip: returns early when a submit is in flight or when the action is refine
and the feedback trims to empty; otherwise posts the action, for refine with
the trimmed feedback, and on success clears the feedback box. -/
def handleReview (st : ReviewState) (action : String) (userId : Nat) (serverOk : Bool) :
    ReviewState × Option ReviewPayload :=
  if st.submitting then (st, none)
  else if action == "refine" && !(strTruthy (jsTrim st.feedback)) then (st, none)
  else
    let payload : ReviewPayload :=
      ⟨action, if action == "refine" then some (jsTrim st.feedback) else none,
        userId, "web"⟩
    if serverOk then ({ feedback := "", submitting := false }, some payload)
    else ({ st with submitting := false }, some payload)

/-- WorkflowDetail.tsx line 176: the review panel is rendered exactly while the
workflow status is awaiting_review. -/
def reviewPanelShown (w : Workflow) : Bool := w.status == "awaiting_review"

/-- WorkflowDetail.tsx lines 385 to 392: the refine button is usable exactly
when the panel is shown, the feedback trims to non empty text and no submit is
in flight. -/
def refineButtonEnabled (w : Workflow) (st : ReviewState) : Bool :=
  reviewPanelShown w && !(!(strTruthy (jsTrim st.feedback)) || st.submitting)

/-- Modelled from the spec: the review transition of the workflow state
machine is implemented by the backend, which is not under src. Spec section
4.2 transition table: from awaiting_review, approve by a bound human reviewer
moves to generating_ppt, and a refinement request with non empty feedback
moves to refining; every other combination is rejected. -/
def reviewTransition (status action feedback : String) (actorIsReviewer : Bool) :
    Option String :=
  if status == "awaiting_review" && action == "approve" && actorIsReviewer then
    some "generating_ppt"
  else if status == "awaiting_review" && action == "refine" && !(feedback == "") then
    some "refining"
  else none

/-- eventIcons (WorkflowDetail.tsx lines 74 to 85). -/
def eventIconsList : List (String × String) :=
  [("created", "🚀"),
   ("research_started", "🔍"),
   ("research_completed", "✅"),
   ("review_requested", "📋"),
   ("approved", "👍"),
   ("refined", "🔄"),
   ("generation_started", "⚙️"),
   ("generation_completed", "🎉"),
   ("notification_sent", "📨"),
   ("failed", "❌")]

/-- WorkflowDetail.tsx line 416: eventIcons[event.event_type] with a pin as
fallback. -/
def eventIcon (t : String) : String :=
  ((eventIconsList.find? fun p => p.1 == t).map Prod.snd).getD "📌"

/-- WorkflowDetail.tsx line 420: event.message with the event type as fallback
for a missing or empty message. -/
def eventText (e : WorkflowEvent) : String :=
  match e.message with
  | some m => if m == "" then e.event_type else m
  | none => e.event_type

/-- One rendered row of the activity timeline. -/
structure TimelineItem where
  eventId : Nat
  icon : String
  text : String
  delayMs : Nat
  deriving DecidableEq

/-- The activity timeline (WorkflowDetail.tsx lines 405 to 441): a copy of the
event list is reversed and rendered with a per index animation delay of thirty
milliseconds. -/
def renderTimeline (events : List WorkflowEvent) : List TimelineItem :=
  events.reverse.enum.map fun p =>
    ⟨p.2.id, eventIcon p.2.event_type, eventText p.2, p.1 * 30⟩

/-! ### Polling timers (setInterval and clearInterval across the views) -/

/-- State of the browser interval timers: the next fresh id and the list of
active timers with their periods in milliseconds. -/
structure TimerState where
  nextId : Nat
  timers : List (Nat × Nat)
  deriving DecidableEq

/-- setInterval: registers a timer with the given period and returns its id. -/
def setIntervalOp (s : TimerState) (periodMs : Nat) : Nat × TimerState :=
  (s.nextId, ⟨s.nextId + 1, s.timers ++ [(s.nextId, periodMs)]⟩)

/-- clearInterval: cancels the timer with the given id. -/
def clearIntervalOp (s : TimerState) (id : Nat) : TimerState :=
  ⟨s.nextId, s.timers.filter fun t => !(t.1 == id)⟩

/-- WorkflowDetail.tsx line 111: poll every three seconds. -/
def workflowDetailPollMs : Nat := 3000

/-- WorkflowDashboard.tsx line 67: poll every five seconds. -/
def workflowDashboardPollMs : Nat := 5000

/-- Marketplace.tsx line 72: poll every five seconds. -/
def marketplacePollMs : Nat := 5000

/-- MarketplaceDetail.tsx line 64: poll every five seconds. -/
def marketplaceDetailPollMs : Nat := 5000

/-- The mount effect of a polling view: one setInterval call at the fixed
period of that view. -/
def mountPollingEffect (periodMs : Nat) (s : TimerState) : Nat × TimerState :=
  setIntervalOp s periodMs

/-- Mounting a polling view and then unmounting it: the cleanup returned by
the effect clears exactly the interval the effect registered. -/
def mountThenUnmount (periodMs : Nat) (s : TimerState) : TimerState :=
  let r := mountPollingEffect periodMs s
  clearIntervalOp r.2 r.1

/-! ### Concrete instances used by witnesses and counterexamples -/

/-- A pending direct invite volunteer entry addressed to user two. -/
def inviteVolunteerEx : Volunteer :=
  ⟨10, 2, "Direct invite: please join this effort", "pending"⟩

/-- An open request posted by user one carrying the direct invite for user
two. -/
def openRequestEx : WorkRequest :=
  ⟨1, "Energy Report", "Quarterly analysis of energy usage", ["research"],
    "open", 1, none, [inviteVolunteerEx]⟩

/-- A workflow summary whose run is active. -/
def runningWorkflowEx : WorkflowSummary :=
  ⟨7, 1, "Sustainable energy", "researching", "ppt_generation", []⟩

/-- A second workflow summary, used while a delete is already in flight. -/
def idleWorkflowEx : WorkflowSummary :=
  ⟨8, 1, "Completed study", "completed", "ppt_generation", []⟩

/-- A step list in step_order sequence whose first step is a review step. -/
def unorderedTrackerSteps : List WorkflowStep :=
  [⟨21, 0, "human_review", "pending", 0⟩,
   ⟨22, 1, "agent_research", "pending", 0⟩,
   ⟨23, 2, "agent_generation", "pending", 0⟩]

/-- A workflow whose ordered step list does not start with the canonical
research step. -/
def unorderedTrackerWorkflow : Workflow :=
  ⟨3, "Report", "pending", unorderedTrackerSteps, []⟩

/-- A step list following the canonical template order. -/
def canonicalTrackerSteps : List WorkflowStep :=
  [⟨31, 0, "agent_research", "completed", 1⟩,
   ⟨32, 1, "human_review", "in_progress", 0⟩,
   ⟨33, 2, "agent_generation", "pending", 0⟩]

/-- A workflow whose ordered step list follows the canonical template. -/
def canonicalTrackerWorkflow : Workflow :=
  ⟨4, "Canonical", "awaiting_review", canonicalTrackerSteps, []⟩

/-- A two event history in canonical chronological order. -/
def timelineEventsEx : List WorkflowEvent :=
  [⟨1, "created", some "Workflow created", none⟩,
   ⟨2, "research_started", none, some "web"⟩]

/-! ### Claim theorems -/

/-- C6: the has this user already volunteered check holds exactly when some
volunteer entry of the request belongs to that user and its note does not
start with the text Direct invite; direct invite entries never count. -/
theorem C6_hasVolunteered_iff (req : WorkRequest) (userId : Nat) :
    hasVolunteered req userId = true ↔
      ∃ v ∈ req.volunteers, v.user_id = userId ∧
        ¬ jsStartsWith v.note "Direct invite" = true := by
  simp [hasVolunteered, isDirectInvite, List.any_eq_true, Bool.and_eq_true,
    beq_iff_eq, Bool.not_eq_true', Bool.not_eq_true]

/-- C2: for a workflow whose status is one of the active run statuses, the
delete handler issues no DELETE request and leaves the dashboard state, in
particular the workflow list, unchanged. -/
theorem C2_no_delete_while_running (s : DashboardState) (w : WorkflowSummary)
    (confirmed serverOk : Bool) (h : w.status ∈ runningWorkflowStatuses) :
    handleDeleteWorkflow s w confirmed serverOk = (s, none) := by
  simp [handleDeleteWorkflow, h, ite_self]

/-- C2 witness: deleting a workflow in status researching is refused even with
the dialog confirmed and the server available. -/
theorem C2_no_delete_while_running_witness :
    handleDeleteWorkflow ⟨[runningWorkflowEx], none⟩ runningWorkflowEx true true =
      (⟨[runningWorkflowEx], none⟩, none) :=
  C2_no_delete_while_running ⟨[runningWorkflowEx], none⟩ runningWorkflowEx true true
    (by decide)

/-- C10: each mutating client action is single flight: while its in flight
flag is set, a second trigger of the same action issues no request and leaves
the client state unchanged. -/
theorem C10_single_flight :
    (∀ (st : MarketplaceDetailState) (userId : Nat) (ok : Bool),
        st.volunteering = true → handleVolunteer st userId ok = (st, none)) ∧
    (∀ (st : MarketplaceDetailState) (volunteerId userId : Nat),
        st.accepting.isSome = true → handleAccept st volunteerId userId = (st, none)) ∧
    (∀ (st : NewWorkflowFormState) (userId : Nat) (ok : Bool),
        st.creating = true → handleCreateWorkflow st userId ok = (st, none)) ∧
    (∀ (s : DashboardState) (w : WorkflowSummary) (confirmed ok : Bool),
        s.deletingWorkflowId.isSome = true →
          handleDeleteWorkflow s w confirmed ok = (s, none)) ∧
    (∀ (st : ReviewState) (action : String) (userId : Nat) (ok : Bool),
        st.submitting = true → handleReview st action userId ok = (st, none)) ∧
    (∀ (st : MarketplaceState) (userId : Nat) (ok : Bool),
        st.posting = true → handlePostRequest st userId ok = (st, none)) := by
  refine ⟨?_, ?_, ?_, ?_, ?_, ?_⟩
  · intro st userId ok h
    simp [handleVolunteer, h]
  · intro st volunteerId userId h
    simp [handleAccept, h]
  · intro st userId ok h
    simp [handleCreateWorkflow, h]
  · intro s w confirmed ok h
    simp [handleDeleteWorkflow, h]
  · intro st action userId ok h
    simp [handleReview, h]
  · intro st userId ok h
    simp [handlePostRequest, h]

/-- C10 witness: each of the six handlers, triggered while its own request is
already in flight, performs no operation. -/
theorem C10_single_flight_witness :
    handleVolunteer ⟨true, "I can help", none⟩ 2 true =
      (⟨true, "I can help", none⟩, none) ∧
    handleAccept ⟨false, "", some 9⟩ 10 1 = (⟨false, "", some 9⟩, none) ∧
    handleCreateWorkflow ⟨"Energy topic", true, true⟩ 1 true =
      (⟨"Energy topic", true, true⟩, none) ∧
    handleDeleteWorkflow ⟨[idleWorkflowEx], some 4⟩ idleWorkflowEx true true =
      (⟨[idleWorkflowEx], some 4⟩, none) ∧
    handleReview ⟨"needs 2024 data", true⟩ "approve" 1 true =
      (⟨"needs 2024 data", true⟩, none) ∧
    handlePostRequest ⟨"Need", "Desc", ["research"], true⟩ 1 true =
      (⟨"Need", "Desc", ["research"], true⟩, none) :=
  ⟨C10_single_flight.1 ⟨true, "I can help", none⟩ 2 true rfl,
   C10_single_flight.2.1 ⟨false, "", some 9⟩ 10 1 rfl,
   C10_single_flight.2.2.1 ⟨"Energy topic", true, true⟩ 1 true rfl,
   C10_single_flight.2.2.2.1 ⟨[idleWorkflowEx], some 4⟩ idleWorkflowEx true true rfl,
   C10_single_flight.2.2.2.2.1 ⟨"needs 2024 data", true⟩ "approve" 1 true rfl,
   C10_single_flight.2.2.2.2.2 ⟨"Need", "Desc", ["research"], true⟩ 1 true rfl⟩

/-- C1 counterexample: on an open request, the accept action is offered to
user two, who holds a pending direct invite but is not the requester, and the
handler then issues the accept request; so accepting is not restricted to the
requester. -/
theorem C1_counterexample :
    acceptOffered openRequestEx 2 inviteVolunteerEx = true ∧
      openRequestEx.requester_id ≠ 2 ∧
      openRequestEx.status = "open" ∧
      handleAccept ⟨false, "", none⟩ 10 2 = (⟨false, "", none⟩, some ⟨10, 2⟩) := by
  decide

/-- C1 amended: the accept action is offered only while the request status is
open — never on an already matched request — and only to the requester or to a
non requester holding a pending direct invite volunteer entry. -/
theorem C1_accept_guard (req : WorkRequest) (userId : Nat) (v : Volunteer)
    (h : acceptOffered req userId v = true) :
    req.status = "open" ∧
      (userId = req.requester_id ∨
        (v.user_id = userId ∧ v.status = "pending" ∧
          jsStartsWith v.note "Direct invite" = true)) := by
  unfold acceptOffered acceptButtonShown inviteAcceptShown isRequester at h
  rw [Bool.or_eq_true] at h
  rcases h with h1 | h2
  · rw [Bool.and_eq_true, Bool.and_eq_true] at h1
    obtain ⟨⟨ha, hb⟩, _⟩ := h1
    exact ⟨beq_iff_eq.mp hb, Or.inl (beq_iff_eq.mp ha)⟩
  · rw [Bool.and_eq_true, Bool.and_eq_true] at h2
    obtain ⟨⟨_, hopen⟩, hmi⟩ := h2
    have hv : myInvite req userId = some v := beq_iff_eq.mp hmi
    unfold myInvite at hv
    have hp := List.find?_some hv
    simp only [Bool.and_eq_true, beq_iff_eq] at hp
    obtain ⟨⟨hu, hs⟩, hd⟩ := hp
    exact ⟨beq_iff_eq.mp hopen,
      Or.inr ⟨hu, hs, by simpa [isDirectInvite] using hd⟩⟩

/-- C1 witness: the requester of the open example request is offered accept,
and the guard conclusion evaluates there. -/
theorem C1_accept_guard_witness :
    openRequestEx.status = "open" ∧
      ((1 : Nat) = openRequestEx.requester_id ∨
        (inviteVolunteerEx.user_id = 1 ∧ inviteVolunteerEx.status = "pending" ∧
          jsStartsWith inviteVolunteerEx.note "Direct invite" = true)) :=
  C1_accept_guard openRequestEx 1 inviteVolunteerEx (by decide)

/-- C9 counterexample: the status toString is none of the eight recognized
statuses, yet the dashboard does not render the Pending entry for it: the
lookup hits the function inherited from the Object prototype, which is
truthy, so the fallback does not fire and the rendered label and badge are
undefined. -/
theorem C9_counterexample :
    ("toString" : String) ∉ ["pending", "collaborating", "researching",
        "refining", "awaiting_review", "generating_ppt", "completed", "failed"] ∧
      renderStatusValue "toString" ≠ JsValue.statusInfo pendingStatusInfo ∧
      jsLabel (renderStatusValue "toString") = none ∧
      jsBadge (renderStatusValue "toString") = none := by
  decide

/-- C9 amended: a workflow status that is neither one of the eight recognized
statuses nor a property name inherited from the Object prototype renders with
the Pending entry; a status naming an inherited Object prototype property
renders with undefined label and badge; and a tracker slot with no step
renders as pending. -/
theorem C9_status_render_totality :
    (∀ status : String,
        status ∉ ["pending", "collaborating", "researching", "refining",
          "awaiting_review", "generating_ppt", "completed", "failed"] →
        status ∉ objectPrototypeKeys →
        renderStatusValue status = JsValue.statusInfo pendingStatusInfo) ∧
    (∀ status ∈ objectPrototypeKeys,
        jsLabel (renderStatusValue status) = none ∧
        jsBadge (renderStatusValue status) = none) ∧
    (∀ slot : PipelineSlot, slot.step = none → slotStatus slot = "pending") ∧
    pendingStatusInfo.label = "Pending" ∧ pendingStatusInfo.badge = "badge-pending" := by
  refine ⟨?_, by decide, ?_, rfl, rfl⟩
  · intro status h h2
    have hn : statusConfigList.find? (fun p => p.1 == status) = none := by
      cases hf : statusConfigList.find? fun p => p.1 == status with
      | none => rfl
      | some pair =>
        exfalso
        have hb := List.find?_some hf
        simp only [beq_iff_eq] at hb
        have hmem : pair ∈ statusConfigList := List.mem_of_find?_eq_some hf
        apply h
        fin_cases hmem <;> simp_all [statusConfigList, pendingStatusInfo]
    have hp : objectPrototypeKeys.contains status = false := by
      cases hc : objectPrototypeKeys.contains status with
      | false => rfl
      | true => exact absurd (by simpa using hc) h2
    unfold renderStatusValue statusConfigLookup
    rw [hn, hp]
    rfl
  · intro slot h
    simp [slotStatus, h]

/-- C9 witness: an unrecognized status that is no inherited property renders
the Pending entry, the inherited key toString renders undefined label and
badge, and an empty research slot renders as pending. -/
theorem C9_status_render_totality_witness :
    renderStatusValue "bogus" = JsValue.statusInfo pendingStatusInfo ∧
      (jsLabel (renderStatusValue "toString") = none ∧
        jsBadge (renderStatusValue "toString") = none) ∧
      slotStatus ⟨"research", "Research", "🔬", none⟩ = "pending" :=
  ⟨C9_status_render_totality.1 "bogus" (by decide) (by decide),
   C9_status_render_totality.2.1 "toString" (by decide),
   C9_status_render_totality.2.2.1 ⟨"research", "Research", "🔬", none⟩ rfl⟩

/-- C3: a refine action whose feedback trims to empty performs no operation
and issues no request; the backend transition, modelled from the spec, reaches
refining only from awaiting_review with non empty feedback; and the review
panel is offered exactly while the status is awaiting_review. -/
theorem C3_refine_requires_feedback :
    (∀ (st : ReviewState) (userId : Nat) (serverOk : Bool),
        jsTrim st.feedback = "" →
        handleReview st "refine" userId serverOk = (st, none)) ∧
    (∀ (status feedback : String) (actorIsReviewer : Bool),
        reviewTransition status "refine" feedback actorIsReviewer = some "refining" →
        status = "awaiting_review" ∧ feedback ≠ "") ∧
    (∀ w : Workflow, reviewPanelShown w = true ↔ w.status = "awaiting_review") := by
  refine ⟨?_, ?_, ?_⟩
  · intro st userId serverOk h
    simp [handleReview, strTruthy, h, ite_self]
  · intro status feedback actorIsReviewer h
    constructor
    · by_contra h1
      simp [reviewTransition, Bool.and_eq_true, beq_iff_eq, h1,
        show (("refine" : String) == "approve") = false from by decide] at h
    · intro hfb
      subst hfb
      simp [reviewTransition, Bool.and_eq_true, beq_iff_eq,
        show (("refine" : String) == "approve") = false from by decide] at h
  · intro w
    simp [reviewPanelShown]

/-- C3 witness: a refine with whitespace only feedback is a no op, and the
modelled transition fires at awaiting_review with concrete non empty
feedback. -/
theorem C3_refine_requires_feedback_witness :
    handleReview ⟨"   ", false⟩ "refine" 5 true = (⟨"   ", false⟩, none) ∧
      (("awaiting_review" : String) = "awaiting_review" ∧
        ("add 2024 statistics" : String) ≠ "") :=
  ⟨C3_refine_requires_feedback.1 ⟨"   ", false⟩ 5 true (by decide),
   C3_refine_requires_feedback.2.1 "awaiting_review" "add 2024 statistics" false
     (by decide)⟩

/-- C4 counterexample: for a workflow whose steps are in step_order sequence
but whose first step is a review step, the tracker does not show the first
three steps of the ordered list: each slot is selected by step type instead. -/
theorem C4_counterexample :
    sortedByStepOrder unorderedTrackerWorkflow.steps = true ∧
      ¬ ((pipelineSteps unorderedTrackerWorkflow).map PipelineSlot.step =
          (unorderedTrackerWorkflow.steps.take 3).map some) := by
  decide

/-- C4 amended: the tracker has three fixed positions, research then review
then generate, each filled by the first step of the matching step type; when
the ordered step list begins with the canonical template, the tracker
coincides with the first three steps of the ordered list. -/
theorem C4_tracker_slots (w : Workflow) (s0 s1 s2 : WorkflowStep)
    (rest : List WorkflowStep) (hsteps : w.steps = s0 :: s1 :: s2 :: rest)
    (h0 : s0.step_type = "agent_research") (h1 : s1.step_type = "human_review")
    (h2 : s2.step_type = "agent_generation") :
    (pipelineSteps w).map PipelineSlot.step = (w.steps.take 3).map some := by
  simp [pipelineSteps, hsteps, h0, h1, h2,
    show (("agent_research" : String) == "human_review") = false from by decide,
    show (("agent_research" : String) == "agent_generation") = false from by decide,
    show (("human_review" : String) == "agent_generation") = false from by decide]

/-- C4 witness: on the canonical template the tracker equals the first three
steps in step_order sequence. -/
theorem C4_tracker_slots_witness :
    (pipelineSteps canonicalTrackerWorkflow).map PipelineSlot.step =
      (canonicalTrackerWorkflow.steps.take 3).map some :=
  C4_tracker_slots canonicalTrackerWorkflow
    ⟨31, 0, "agent_research", "completed", 1⟩
    ⟨32, 1, "human_review", "in_progress", 0⟩
    ⟨33, 2, "agent_generation", "pending", 0⟩ [] rfl rfl rfl rfl

/-- Mapping over an enumerated list while ignoring the index is mapping over
the underlying list. -/
theorem map_enum_proj {α β : Type} (f : α → β) (l : List α) :
    (l.enum.map fun p => f p.2) = l.map f := by
  have h1 : (fun p : Nat × α => f p.2) = f ∘ Prod.snd := rfl
  rw [h1, ← List.map_map, List.enum_map_snd]

/-- C5: the rendered activity timeline is the reversal of the event list held
in canonical chronological order: lengths agree, the rendered event ids are
the reversed ids, and the item at position i shows the event at position
length minus one minus i; the event list itself is left intact. -/
theorem C5_timeline_reverse_chronological :
    ∀ events : List WorkflowEvent,
      (renderTimeline events).length = events.length ∧
      (renderTimeline events).map TimelineItem.eventId =
        (events.map WorkflowEvent.id).reverse ∧
      ∀ i, i < events.length →
        ((renderTimeline events).map TimelineItem.eventId)[i]? =
          (events.map WorkflowEvent.id)[events.length - 1 - i]? := by
  intro events
  have hmap : (renderTimeline events).map TimelineItem.eventId =
      (events.map WorkflowEvent.id).reverse := by
    unfold renderTimeline
    rw [List.map_map]
    have hc : (TimelineItem.eventId ∘ fun p : Nat × WorkflowEvent =>
        TimelineItem.mk p.2.id (eventIcon p.2.event_type) (eventText p.2) (p.1 * 30)) =
        fun p : Nat × WorkflowEvent => p.2.id := rfl
    rw [hc, map_enum_proj WorkflowEvent.id events.reverse, List.map_reverse]
  have hlen : (events.map WorkflowEvent.id).length = events.length := by simp
  refine ⟨by simp [renderTimeline], hmap, ?_⟩
  intro i hi
  rw [hmap, List.getElem?_reverse (by rw [hlen]; exact hi), hlen]

/-- C5 witness: on a concrete two event history the first rendered item is the
most recent event. -/
theorem C5_timeline_reverse_chronological_witness :
    ((renderTimeline timelineEventsEx).map TimelineItem.eventId)[0]? =
      (timelineEventsEx.map WorkflowEvent.id)[timelineEventsEx.length - 1 - 0]? :=
  (C5_timeline_reverse_chronological timelineEventsEx).2.2 0 (by decide)

/-- C7: posting with an empty title, description or capability set fails with
ValidationError and creates nothing, posting with all three non empty creates
an open request, the client handler refuses to post when title or description
trim to empty, and the submit button is enabled exactly when all inputs are
usable and no post is in flight. -/
theorem C7_post_request_validation :
    (∀ (requesterId : Nat) (title description : String) (caps : List String)
        (freshId : Nat),
        (title = "" ∨ description = "" ∨ caps = []) →
        post_request requesterId title description caps freshId =
          .error .ValidationError) ∧
    (∀ (requesterId : Nat) (title description : String) (caps : List String)
        (freshId : Nat),
        title ≠ "" → description ≠ "" → caps ≠ [] →
        ∃ r, post_request requesterId title description caps freshId = .ok r ∧
          r.status = "open" ∧ r.title = title ∧ r.description = description ∧
          r.required_capabilities = caps ∧ r.requester_id = requesterId) ∧
    (∀ (st : MarketplaceState) (userId : Nat) (serverOk : Bool),
        (jsTrim st.newTitle = "" ∨ jsTrim st.newDesc = "") →
        handlePostRequest st userId serverOk = (st, none)) ∧
    (∀ st : MarketplaceState,
        postButtonEnabled st = true ↔
          jsTrim st.newTitle ≠ "" ∧ jsTrim st.newDesc ≠ "" ∧
            st.newCaps ≠ [] ∧ st.posting = false) := by
  refine ⟨?_, ?_, ?_, ?_⟩
  · intro rid title desc caps fid h
    rcases h with h | h | h <;> simp [post_request, h]
  · intro rid title desc caps fid h1 h2 h3
    have hok : post_request rid title desc caps fid =
        .ok ⟨fid, title, desc, caps, "open", rid, none, []⟩ := by
      unfold post_request
      simp [h1, h2, h3, List.isEmpty_iff]
    exact ⟨_, hok, rfl, rfl, rfl, rfl, rfl⟩
  · intro st uid ok h
    rcases h with h | h <;> simp [handlePostRequest, strTruthy, h, ite_self]
  · intro st
    simp [postButtonEnabled, strTruthy, List.length_eq_zero, not_or,
      Bool.or_eq_true, Bool.not_eq_true', beq_iff_eq, Bool.not_eq_true]
    tauto

/-- C7 witness: a post with an empty title is rejected with ValidationError
and the spec scenario request is created open. -/
theorem C7_post_request_validation_witness :
    post_request 1 "" "Quarterly analysis" ["research"] 100 =
      .error .ValidationError ∧
      ∃ r, post_request 1 "Energy Report" "Quarterly analysis"
          ["research", "presentation"] 100 = .ok r ∧
        r.status = "open" ∧ r.title = "Energy Report" ∧
        r.description = "Quarterly analysis" ∧
        r.required_capabilities = ["research", "presentation"] ∧
        r.requester_id = 1 :=
  ⟨C7_post_request_validation.1 1 "" "Quarterly analysis" ["research"] 100
      (Or.inl rfl),
   C7_post_request_validation.2.1 1 "Energy Report" "Quarterly analysis"
      ["research", "presentation"] 100 (by decide) (by decide) (by decide)⟩

/-- C8: the workflow detail view polls every three seconds, the dashboard and
the marketplace views every five, every period lies between three and five
seconds, and mounting then unmounting a polling view first registers exactly
its interval and then cancels it, leaving the timers as before. -/
theorem C8_polling_intervals :
    workflowDetailPollMs = 3000 ∧ workflowDashboardPollMs = 5000 ∧
      marketplacePollMs = 5000 ∧ marketplaceDetailPollMs = 5000 ∧
      (∀ p ∈ [workflowDetailPollMs, workflowDashboardPollMs, marketplacePollMs,
          marketplaceDetailPollMs], 3000 ≤ p ∧ p ≤ 5000) ∧
      (∀ (periodMs : Nat) (s : TimerState),
          (∀ t ∈ s.timers, t.1 < s.nextId) →
          ((mountPollingEffect periodMs s).1, periodMs) ∈
              (mountPollingEffect periodMs s).2.timers ∧
            (mountThenUnmount periodMs s).timers = s.timers) := by
  refine ⟨rfl, rfl, rfl, rfl, by decide, ?_⟩
  intro periodMs s h
  constructor
  · simp [mountPollingEffect, setIntervalOp]
  · have hgoal : List.filter (fun t => !(t.1 == s.nextId))
        (s.timers ++ [(s.nextId, periodMs)]) = s.timers := by
      rw [List.filter_append]
      have h2 : List.filter (fun t => !(t.1 == s.nextId)) [(s.nextId, periodMs)] = [] := by
        simp
      rw [h2, List.append_nil]
      apply List.filter_eq_self.mpr
      intro a ha
      have hlt := h a ha
      simp [Nat.ne_of_lt hlt]
    simpa [mountThenUnmount, mountPollingEffect, setIntervalOp, clearIntervalOp]
      using hgoal

/-- C8 witness: mounting the workflow detail view on an empty timer table
registers its three second interval and unmounting removes it again. -/
theorem C8_polling_intervals_witness :
    (3000 ≤ workflowDetailPollMs ∧ workflowDetailPollMs ≤ 5000) ∧
      ((mountPollingEffect workflowDetailPollMs ⟨0, []⟩).1, workflowDetailPollMs) ∈
        (mountPollingEffect workflowDetailPollMs ⟨0, []⟩).2.timers ∧
      (mountThenUnmount workflowDetailPollMs ⟨0, []⟩).timers = [] :=
  ⟨C8_polling_intervals.2.2.2.2.1 workflowDetailPollMs (by simp),
   (C8_polling_intervals.2.2.2.2.2 workflowDetailPollMs ⟨0, []⟩ (by simp)).1,
   (C8_polling_intervals.2.2.2.2.2 workflowDetailPollMs ⟨0, []⟩ (by simp)).2⟩

end Spec2Proof
